import Mathlib

/-!
Verification of the Nunchuck I2C driver (`include/nunchuckreader.h`,
namespace `nunchuckadapter`).

The driver is embedded shallowly:

* C++ `int` arithmetic is modelled by `Int`; the bitwise operators `&`,
  `|`, `^`, `<<` of the source act on 32-bit two's-complement values, so
  they are modelled by `cxxAnd`, `cxxOr`, `cxxXor`, `cxxShl` below, which
  reinterpret the operands as 32-bit patterns (`toBits32`) and the result
  as a signed `int` again (`ofBits32`).  `>>` on `int` is an arithmetic
  shift (`cxxShr`).
* The wiringPi bus calls (`wiringPiI2CSetup`, `wiringPiI2CWriteReg8`,
  `wiringPiI2CWrite`, `wiringPiI2CRead`) and the sleep primitive are
  modelled by explicit state passing over a `Transport` record that
  scripts the values returned by reads and records every bus operation in
  a trace.  `wiringPiI2CRead` returns the next scripted value; on an
  exhausted script it returns `-1`, the wiringPi error value for a failed
  read.
* The mutable `NunchuckReader` object is a record threaded through every
  member function; each member function returns the updated object so
  that frame conditions (which fields a call may change) are provable.
-/

namespace NunchuckVerify

/-- Number of values of a 32-bit machine word, `2^32`. -/
def UINT32_MOD : Nat := 4294967296

/-- First value outside the non-negative range of a 32-bit `int`, `2^31`. -/
def INT32_HALF : Nat := 2147483648

/-- Reinterpret a C++ `int` value as its 32-bit two's-complement bit
pattern (a natural number below `2^32`). -/
def toBits32 (a : Int) : Nat := (a % (UINT32_MOD : Int)).toNat

/-- Reinterpret a 32-bit pattern as a signed C++ `int` value. -/
def ofBits32 (n : Nat) : Int :=
  if n < INT32_HALF then (n : Int) else (n : Int) - (UINT32_MOD : Int)

/-- C++ `a & b` on `int`: bitwise AND of the 32-bit patterns. -/
def cxxAnd (a b : Int) : Int := ofBits32 (toBits32 a &&& toBits32 b)

/-- C++ `a | b` on `int`: bitwise OR of the 32-bit patterns. -/
def cxxOr (a b : Int) : Int := ofBits32 (toBits32 a ||| toBits32 b)

/-- C++ `a ^ b` on `int`: bitwise XOR of the 32-bit patterns. -/
def cxxXor (a b : Int) : Int := ofBits32 (toBits32 a ^^^ toBits32 b)

/-- C++ `a << n` on `int` (gcc semantics): shift of the 32-bit pattern,
truncated back to 32 bits. -/
def cxxShl (a : Int) (n : Nat) : Int := ofBits32 ((toBits32 a <<< n) % UINT32_MOD)

/-- C++ `a >> n` on `int` (gcc semantics): arithmetic right shift, which
on the mathematical integers is `Int.shiftRight`. -/
def cxxShr (a : Int) (n : Nat) : Int := Int.shiftRight a n

/-- One bus / timing operation performed against the wiringPi layer, as
recorded in the transport trace. -/
inductive BusOp where
  | setup (addr : Int)
  | writeReg8 (fd reg value : Int)
  | write (fd value : Int)
  | read (fd : Int)
  | sleep (micros : Int)
  deriving DecidableEq, Repr

/-- State of the mocked wiringPi transport: the file descriptor that
`wiringPiI2CSetup` will hand out (negative models a failed open), the
scripted results of the upcoming byte reads, and the trace of every
operation issued so far.  A scripted value of `-1` (or an exhausted
script) models a failed bus read, which wiringPi reports by returning
`-1`. -/
structure Transport where
  setupResult : Int
  pending : List Int
  trace : List BusOp
  deriving DecidableEq, Repr

/-- Model of `wiringPiI2CSetup`: returns the scripted file descriptor and
records the open. -/
def wiringPiI2CSetup (addr : Int) (t : Transport) : Int × Transport :=
  (t.setupResult, { t with trace := t.trace ++ [BusOp.setup addr] })

/-- Model of `wiringPiI2CWriteReg8`: records the register write. -/
def wiringPiI2CWriteReg8 (fd reg value : Int) (t : Transport) : Int × Transport :=
  (0, { t with trace := t.trace ++ [BusOp.writeReg8 fd reg value] })

/-- Model of `wiringPiI2CWrite`: records the plain byte write. -/
def wiringPiI2CWrite (fd value : Int) (t : Transport) : Int × Transport :=
  (0, { t with trace := t.trace ++ [BusOp.write fd value] })

/-- Model of `wiringPiI2CRead`: pops and returns the next scripted value,
or `-1` (the wiringPi failure value) when the script is exhausted, and
records the read. -/
def wiringPiI2CRead (fd : Int) (t : Transport) : Int × Transport :=
  (t.pending.headD (-1),
   { t with pending := t.pending.tail, trace := t.trace ++ [BusOp.read fd] })

/-- Model of `std::this_thread::sleep_for(std::chrono::microseconds(n))`:
records the wait in the trace. -/
def sleepMicroseconds (micros : Int) (t : Transport) : Transport :=
  { t with trace := t.trace ++ [BusOp.sleep micros] }

/-- The `RawNunchuckData` struct of the source: the decoded integer
fields of one reading. -/
structure RawNunchuckData where
  joystickPositionX : Int
  joystickPositionY : Int
  accelerationOnX : Int
  accelerationOnY : Int
  accelerationOnZ : Int
  buttonCState : Int
  buttonZState : Int
  deriving DecidableEq, Repr

/-- The mutable fields of the `NunchuckReader` C++ object (field names as
spelled in the source). -/
structure NunchuckReader where
  encyptedModeEnabled : Bool
  i2CPortFileDescriptor : Int
  circuitAdaptationWaitMicrosecons : Int
  deriving DecidableEq, Repr

/-- The `NunchuckReader::InitializationMode` enum. -/
inductive InitializationMode where
  | ENCRYPTED
  | NOT_ENCRYPTED
  deriving DecidableEq, Repr

/-- The distinct `throw` sites of the source, as an error type. -/
inductive DriverError where
  /-- thrown when the configured wait is below the 300 microsecond floor -/
  | invalidConfigurationError
  /-- thrown by `initI2C` when `wiringPiI2CSetup` returns a negative fd -/
  | i2cSetupError
  /-- thrown by the constructor on an unrecognized mode value -/
  | invalidModeError
  deriving DecidableEq, Repr

/-- `NunchuckReader::NUNCHUCK_I2C_ADDRESS`. -/
def NUNCHUCK_I2C_ADDRESS : Int := 0x52

/-- `NunchuckReader::MINIMUN_CIRCUIT_ADAPTATION_WAIT_MICROSECONDS`. -/
def MINIMUN_CIRCUIT_ADAPTATION_WAIT_MICROSECONDS : Int := 300

/-- `NunchuckReader::DEFAULT_CIRCUIT_ADAPTATION_WAIT_MICROSECONDS`. -/
def DEFAULT_CIRCUIT_ADAPTATION_WAIT_MICROSECONDS : Int := 500

/-- The local array `int readBuffer[6]` filled by `fetchDeviceBuffer`;
field `vI` is `readBuffer[I]`. -/
structure ReadBuffer where
  v0 : Int
  v1 : Int
  v2 : Int
  v3 : Int
  v4 : Int
  v5 : Int
  deriving DecidableEq, Repr

/-- `NunchuckReader::decrypt`: `return (readByte ^ 0x17) + 0x17;`. -/
def decrypt (readByte : Int) : Int := cxxXor readByte 0x17 + 0x17

/-- `NunchuckReader::initWithEncryption`: one register write, the wait,
then the flag is set to `true`. -/
def initWithEncryption (fd wait : Int) (t : Transport) : Bool × Transport :=
  let (_, t) := wiringPiI2CWriteReg8 fd 0x40 0x00 t
  let t := sleepMicroseconds wait t
  (true, t)

/-- `NunchuckReader::initWithoutEncryption`: two register writes, the
wait, then the flag is set to `false`. -/
def initWithoutEncryption (fd wait : Int) (t : Transport) : Bool × Transport :=
  let (_, t) := wiringPiI2CWriteReg8 fd 0xF0 0x55 t
  let (_, t) := wiringPiI2CWriteReg8 fd 0xFB 0x00 t
  let t := sleepMicroseconds wait t
  (false, t)

/-- The two-argument `NunchuckReader` constructor: validates the wait,
runs `initI2C` (open plus negative-fd check), then branches on the mode.
A thrown C++ exception is modelled as `Except.error`; the transport state
is returned alongside so that the bus operations performed before a
failure remain observable. -/
def mkNunchuckReader (circuitAdaptationWaitMicroseconds : Int)
    (initializationMode : InitializationMode) (t : Transport) :
    Except DriverError NunchuckReader × Transport :=
  if circuitAdaptationWaitMicroseconds < MINIMUN_CIRCUIT_ADAPTATION_WAIT_MICROSECONDS then
    (Except.error DriverError.invalidConfigurationError, t)
  else
    let (fd, t) := wiringPiI2CSetup NUNCHUCK_I2C_ADDRESS t
    if fd < 0 then
      (Except.error DriverError.i2cSetupError, t)
    else
      match initializationMode with
      | InitializationMode.ENCRYPTED =>
          let (flag, t) := initWithEncryption fd circuitAdaptationWaitMicroseconds t
          (Except.ok ⟨flag, fd, circuitAdaptationWaitMicroseconds⟩, t)
      | InitializationMode.NOT_ENCRYPTED =>
          let (flag, t) := initWithoutEncryption fd circuitAdaptationWaitMicroseconds t
          (Except.ok ⟨flag, fd, circuitAdaptationWaitMicroseconds⟩, t)

/-- The single-argument `NunchuckReader` constructor, which delegates with
the default wait. -/
def mkNunchuckReaderDefaultWait (initializationMode : InitializationMode)
    (t : Transport) : Except DriverError NunchuckReader × Transport :=
  mkNunchuckReader DEFAULT_CIRCUIT_ADAPTATION_WAIT_MICROSECONDS initializationMode t

/-- `NunchuckReader::isEncryptedModeEnabled`: returns the flag; the
object is returned unchanged to make the frame condition explicit. -/
def isEncryptedModeEnabled (s : NunchuckReader) : Bool × NunchuckReader :=
  (s.encyptedModeEnabled, s)

/-- `NunchuckReader::fetchDeviceBuffer`: a zero-byte write, the wait,
then six single-byte reads filling `readBuffer[0] .. readBuffer[5]` in
order. -/
def fetchDeviceBuffer (s : NunchuckReader) (t : Transport) :
    ReadBuffer × NunchuckReader × Transport :=
  let (_, t) := wiringPiI2CWrite s.i2CPortFileDescriptor 0x00 t
  let t := sleepMicroseconds s.circuitAdaptationWaitMicrosecons t
  let (v0, t) := wiringPiI2CRead s.i2CPortFileDescriptor t
  let (v1, t) := wiringPiI2CRead s.i2CPortFileDescriptor t
  let (v2, t) := wiringPiI2CRead s.i2CPortFileDescriptor t
  let (v3, t) := wiringPiI2CRead s.i2CPortFileDescriptor t
  let (v4, t) := wiringPiI2CRead s.i2CPortFileDescriptor t
  let (v5, t) := wiringPiI2CRead s.i2CPortFileDescriptor t
  (⟨v0, v1, v2, v3, v4, v5⟩, s, t)

/-- `NunchuckReader::parseDeviceBuffer`: the bit-level decode of the six
raw values. -/
def parseDeviceBuffer (readBuffer : ReadBuffer) : RawNunchuckData :=
  let joyX := readBuffer.v0
  let joyY := readBuffer.v1
  let rawAccelX := cxxOr (cxxShl readBuffer.v2 2) (cxxShr (cxxAnd readBuffer.v5 0xc0) 6)
  let rawAccelY := cxxOr (cxxShl readBuffer.v3 2) (cxxShr (cxxAnd readBuffer.v5 0x30) 4)
  let rawAccelZ := cxxOr (cxxShl readBuffer.v4 2) (cxxShr (cxxAnd readBuffer.v5 0x0c) 2)
  let c := cxxShr (cxxAnd readBuffer.v5 0x02) 1
  let z := cxxAnd readBuffer.v5 0x01
  ⟨joyX, joyY, rawAccelX, rawAccelY, rawAccelZ, c, z⟩

/-- `NunchuckReader::readRawData`: fetch the device buffer, then parse
it.  Note that the source calls `parseDeviceBuffer` directly on the
fetched bytes; `decrypt` is not invoked on this path. -/
def readRawData (s : NunchuckReader) (t : Transport) :
    RawNunchuckData × NunchuckReader × Transport :=
  let (readBuffer, s, t) := fetchDeviceBuffer s t
  (parseDeviceBuffer readBuffer, s, t)

/-- Modelled from the spec: the joystick container of `nunchuckdata.h`
(not under src/); per the spec a StructuredReading is the RawReading
"re-expressed ... purely a relabeling, no additional invariant", so the
constructor stores its two arguments unchanged. -/
structure NunchuckJoystick where
  x : Int
  y : Int
  deriving DecidableEq, Repr

/-- Modelled from the spec: the accelerometer container of
`nunchuckdata.h` (not under src/); the constructor stores its three
arguments unchanged. -/
structure NunchuckAccelerometer where
  x : Int
  y : Int
  z : Int
  deriving DecidableEq, Repr

/-- Modelled from the spec: the button container of `nunchuckdata.h`
(not under src/); the constructor stores the 0/1 state unchanged. -/
structure NunchuckButton where
  state : Int
  deriving DecidableEq, Repr

/-- Modelled from the spec: the `NunchuckData` container of
`nunchuckdata.h` (not under src/); a pure aggregate of the sub-values, in
the argument order of the call site in `readDeviceValues`
(joystick, accelerometer, buttonZ, buttonC). -/
structure NunchuckData where
  joystick : NunchuckJoystick
  accelerometer : NunchuckAccelerometer
  buttonZ : NunchuckButton
  buttonC : NunchuckButton
  deriving DecidableEq, Repr

/-- `NunchuckReader::readDeviceValues`: one `readRawData` call, then pure
repackaging into the typed containers. -/
def readDeviceValues (s : NunchuckReader) (t : Transport) :
    NunchuckData × NunchuckReader × Transport :=
  let (rawData, s, t) := readRawData s t
  let joystick := NunchuckJoystick.mk rawData.joystickPositionX rawData.joystickPositionY
  let accelerometer := NunchuckAccelerometer.mk rawData.accelerationOnX
    rawData.accelerationOnY rawData.accelerationOnZ
  let buttonC := NunchuckButton.mk rawData.buttonCState
  let buttonZ := NunchuckButton.mk rawData.buttonZState
  (NunchuckData.mk joystick accelerometer buttonZ buttonC, s, t)

/-- A value representable in one unsigned byte, the range every
successful `wiringPiI2CRead` result lies in. -/
def isByte (b : Int) : Prop := 0 ≤ b ∧ b ≤ 255

instance (b : Int) : Decidable (isByte b) := by
  unfold isByte
  infer_instance

/-- A driver object in the state produced by encrypted-mode
initialization: flag set, fd 3, default wait. -/
def encryptedReader : NunchuckReader := ⟨true, 3, 500⟩

/-- A driver object in the state produced by plain-mode initialization. -/
def plainReader : NunchuckReader := ⟨false, 3, 500⟩

/-- A transport scripted to deliver an all-zero 6-byte frame. -/
def zeroFrameTransport : Transport := ⟨3, [0, 0, 0, 0, 0, 0], []⟩

/-- A transport whose read script is exhausted: every byte read fails and
returns the wiringPi error value `-1`. -/
def failedReadTransport : Transport := ⟨3, [], []⟩

/-- A transport scripted with the worked example frame of the spec,
`[0x80, 0x80, 0x10, 0x20, 0x30, 0xC3]`. -/
def exampleFrameTransport : Transport := ⟨3, [0x80, 0x80, 0x10, 0x20, 0x30, 0xC3], []⟩

/-! ## Helper lemmas: evaluating the 32-bit operations on byte inputs -/

/-- On a byte value the 32-bit reinterpretation is just `Int.toNat`. -/
theorem toBits32_byte {b : Int} (h : isByte b) : toBits32 b = b.toNat := by
  obtain ⟨h0, h1⟩ := h
  have hmod : b % ((UINT32_MOD : Nat) : Int) = b := by
    apply Int.emod_eq_of_lt h0
    simp only [UINT32_MOD]
    omega
  simp [toBits32, hmod]

/-- A pattern below `2^31` reads back as the same non-negative value. -/
theorem ofBits32_small {n : Nat} (h : n < INT32_HALF) : ofBits32 n = (n : Int) := by
  unfold ofBits32
  rw [if_pos h]

/-- `cxxAnd` on byte inputs is the natural-number AND. -/
theorem cxxAnd_byte {p m : Int} (hp : isByte p) (hm : isByte m) :
    cxxAnd p m = ((p.toNat &&& m.toNat : Nat) : Int) := by
  unfold cxxAnd
  rw [toBits32_byte hp, toBits32_byte hm]
  apply ofBits32_small
  have h1 : p.toNat &&& m.toNat ≤ m.toNat := Nat.and_le_right
  have h2 : m.toNat ≤ 255 := by
    obtain ⟨hm0, hm1⟩ := hm
    omega
  simp only [INT32_HALF]
  omega

/-- `cxxXor` on byte inputs is the natural-number XOR. -/
theorem cxxXor_byte {p m : Int} (hp : isByte p) (hm : isByte m) :
    cxxXor p m = ((p.toNat ^^^ m.toNat : Nat) : Int) := by
  unfold cxxXor
  rw [toBits32_byte hp, toBits32_byte hm]
  apply ofBits32_small
  have h1 : p.toNat < 2 ^ 9 := by obtain ⟨a, b⟩ := hp; omega
  have h2 : m.toNat < 2 ^ 9 := by obtain ⟨a, b⟩ := hm; omega
  have h3 : p.toNat ^^^ m.toNat < 2 ^ 9 := Nat.xor_lt_two_pow h1 h2
  simp only [INT32_HALF]
  omega

/-- `cxxShl _ 2` on a byte input is the natural-number shift. -/
theorem cxxShl_byte {a : Int} (ha : isByte a) :
    cxxShl a 2 = ((a.toNat <<< 2 : Nat) : Int) := by
  unfold cxxShl
  rw [toBits32_byte ha]
  have hle : a.toNat ≤ 255 := by
    obtain ⟨h0, h1⟩ := ha
    omega
  have heq : a.toNat <<< 2 = a.toNat * 4 := by
    rw [Nat.shiftLeft_eq]
  have hlt : a.toNat <<< 2 < UINT32_MOD := by
    simp only [UINT32_MOD]
    omega
  rw [Nat.mod_eq_of_lt hlt]
  apply ofBits32_small
  simp only [INT32_HALF]
  omega

/-- `cxxShr` on a cast natural number is the natural-number shift. -/
theorem cxxShr_natCast (x : Nat) (n : Nat) :
    cxxShr (x : Int) n = ((x >>> n : Nat) : Int) := rfl

/-- `toBits32` on a cast natural number below `2^32` is the identity. -/
theorem toBits32_natCast {x : Nat} (h : x < UINT32_MOD) : toBits32 (x : Int) = x := by
  unfold toBits32
  rw [Int.emod_eq_of_lt (by positivity) (by exact_mod_cast h)]
  exact Int.toNat_natCast x

/-- `cxxOr` on cast natural numbers below `2^31` is the natural-number OR. -/
theorem cxxOr_natCast {x y : Nat} (hx : x < INT32_HALF) (hy : y < INT32_HALF) :
    cxxOr (x : Int) (y : Int) = ((x ||| y : Nat) : Int) := by
  have hm : INT32_HALF < UINT32_MOD := by simp [INT32_HALF, UINT32_MOD]
  unfold cxxOr
  rw [toBits32_natCast (by omega), toBits32_natCast (by omega)]
  apply ofBits32_small
  have h1024 : INT32_HALF = 2 ^ 31 := by simp [INT32_HALF]
  rw [h1024] at hx hy ⊢
  exact Nat.or_lt_two_pow hx hy

/-- One accelerometer axis of the decode: an 8-bit coarse byte shifted
left by 2, OR-ed with at most 2 mask bits, lies in `[0, 1023]`. -/
theorem accel_axis_range {a p m : Int} (k : Nat) (ha : isByte a) (hp : isByte p)
    (hm : isByte m) (hk : m.toNat >>> k ≤ 3) :
    0 ≤ cxxOr (cxxShl a 2) (cxxShr (cxxAnd p m) k) ∧
      cxxOr (cxxShl a 2) (cxxShr (cxxAnd p m) k) ≤ 1023 := by
  have hale : a.toNat ≤ 255 := by obtain ⟨h0, h1⟩ := ha; omega
  rw [cxxShl_byte ha, cxxAnd_byte hp hm, cxxShr_natCast]
  have hxlt : a.toNat <<< 2 < 1024 := by
    rw [Nat.shiftLeft_eq]
    omega
  have hylt : (p.toNat &&& m.toNat) >>> k ≤ 3 := by
    have hmono : (p.toNat &&& m.toNat) >>> k ≤ m.toNat >>> k := by
      rw [Nat.shiftRight_eq_div_pow, Nat.shiftRight_eq_div_pow]
      exact Nat.div_le_div_right Nat.and_le_right
    omega
  have hor : a.toNat <<< 2 ||| (p.toNat &&& m.toNat) >>> k < 1024 := by
    have h2 : (1024 : Nat) = 2 ^ 10 := by norm_num
    rw [h2] at hxlt ⊢
    exact Nat.or_lt_two_pow hxlt (by omega)
  rw [cxxOr_natCast (by simp only [INT32_HALF]; omega) (by simp only [INT32_HALF]; omega)]
  constructor
  · positivity
  · exact_mod_cast Nat.lt_succ_iff.mp hor

/-- The C-button bit of the decode is 0 or 1 on byte input. -/
theorem button_c_cases {p : Int} (hp : isByte p) :
    cxxShr (cxxAnd p 2) 1 = 0 ∨ cxxShr (cxxAnd p 2) 1 = 1 := by
  have h2 : isByte (2 : Int) := by decide
  rw [cxxAnd_byte hp h2, cxxShr_natCast]
  have hle : (p.toNat &&& (2 : Int).toNat) >>> 1 ≤ 1 := by
    have h1 : p.toNat &&& (2 : Int).toNat ≤ 2 := Nat.and_le_right
    rw [Nat.shiftRight_eq_div_pow]
    omega
  omega

/-- The Z-button bit of the decode is 0 or 1 on byte input. -/
theorem button_z_cases {p : Int} (hp : isByte p) :
    cxxAnd p 1 = 0 ∨ cxxAnd p 1 = 1 := by
  have h1 : isByte (1 : Int) := by decide
  rw [cxxAnd_byte hp h1]
  have hle : p.toNat &&& (1 : Int).toNat ≤ 1 := Nat.and_le_right
  omega

/-! ## Claim theorems -/

/-- C1 (code bug in the source): the claim says that in Encrypted mode
`readRawData` applies `decrypt` to each of the 6 fetched bytes before
decoding, and in Plain mode the bytes pass through unchanged.  In the
source `decrypt` is defined — with a doc comment saying it is the
decryption function for bytes read in encryption mode — but is never
called: `readRawData` hands the fetched bytes straight to
`parseDeviceBuffer` and does not even consult `encyptedModeEnabled`.
Formally: the reading produced by `readRawData` is independent of the
encryption flag, and for an encrypted-mode driver fed the all-zero frame
the returned `joystickPositionX` is the raw byte `0`, not
`decrypt 0 = 0x2E = 46` as the claimed behaviour would give. -/
theorem readRawData_skips_decrypt :
    (∀ (s : NunchuckReader) (b : Bool) (t : Transport),
        (readRawData { s with encyptedModeEnabled := b } t).1 = (readRawData s t).1) ∧
    encryptedReader.encyptedModeEnabled = true ∧
    (readRawData encryptedReader zeroFrameTransport).1.joystickPositionX = 0 ∧
    decrypt 0 = 46 :=
  ⟨fun _ _ _ => rfl, rfl, by decide, by decide⟩

/-- C2 counterexample: with every one of the 6 single-byte reads failing
(exhausted script, wiringPi error value `-1`), `readRawData` raises no
`TransportError`: all 6 reads are still issued and a complete
`RawNunchuckData`, decoded from the `-1` error values, is returned to the
caller. -/
theorem fetch_error_counterexample :
    failedReadTransport.pending = [] ∧
    (readRawData plainReader failedReadTransport).1 = ⟨-1, -1, -1, -1, -1, 1, 1⟩ ∧
    (readRawData plainReader failedReadTransport).2.2.trace =
      [BusOp.write 3 0, BusOp.sleep 500, BusOp.read 3, BusOp.read 3, BusOp.read 3,
       BusOp.read 3, BusOp.read 3, BusOp.read 3] := by decide

/-- C2 (amended): `fetchDeviceBuffer` performs no error check on the 6
reads; a failing read yields the wiringPi error value `-1`, which is
stored in the buffer like a data byte.  When every read fails,
`readRawData` still issues all 6 reads and returns the `RawNunchuckData`
decoded from the six `-1` values — no `TransportError` is raised in the
read path and the (garbage) reading reaches the caller. -/
theorem fetch_error_undetected (s : NunchuckReader) (t : Transport) (h : t.pending = []) :
    (readRawData s t).1 = parseDeviceBuffer ⟨-1, -1, -1, -1, -1, -1⟩ ∧
    (readRawData s t).2.2.trace =
      t.trace ++ [BusOp.write s.i2CPortFileDescriptor 0,
        BusOp.sleep s.circuitAdaptationWaitMicrosecons,
        BusOp.read s.i2CPortFileDescriptor, BusOp.read s.i2CPortFileDescriptor,
        BusOp.read s.i2CPortFileDescriptor, BusOp.read s.i2CPortFileDescriptor,
        BusOp.read s.i2CPortFileDescriptor, BusOp.read s.i2CPortFileDescriptor] := by
  constructor <;>
    simp [readRawData, fetchDeviceBuffer, wiringPiI2CWrite, sleepMicroseconds,
      wiringPiI2CRead, h]

/-- Witness for C2 (amended), at the concrete exhausted-script
transport. -/
theorem fetch_error_undetected_witness :
    (readRawData plainReader failedReadTransport).1 =
      parseDeviceBuffer ⟨-1, -1, -1, -1, -1, -1⟩ ∧
    (readRawData plainReader failedReadTransport).2.2.trace =
      failedReadTransport.trace ++ [BusOp.write plainReader.i2CPortFileDescriptor 0,
        BusOp.sleep plainReader.circuitAdaptationWaitMicrosecons,
        BusOp.read plainReader.i2CPortFileDescriptor,
        BusOp.read plainReader.i2CPortFileDescriptor,
        BusOp.read plainReader.i2CPortFileDescriptor,
        BusOp.read plainReader.i2CPortFileDescriptor,
        BusOp.read plainReader.i2CPortFileDescriptor,
        BusOp.read plainReader.i2CPortFileDescriptor] :=
  fetch_error_undetected plainReader failedReadTransport rfl

/-- C3 counterexample: the claim says `decrypt` truncates
`(b XOR 0x17) + 0x17` to a byte and that `decrypt 0xFF = 0x0F`.  In the
source the sum is returned as a plain `int` with no truncation:
`decrypt 0xFF = 0xFF` (not `0x0F`), and `decrypt 0xE8 = 278`, which does
not fit in a byte at all. -/
theorem decrypt_no_truncation_counterexample :
    decrypt 0xFF ≠ 0x0F ∧ decrypt 0xE8 = 278 ∧ ¬ decrypt 0xE8 ≤ 255 := by decide

/-- C3 (amended): for every input byte `b` in 0–255, `decrypt` returns
`(b XOR 0x17) + 0x17` as a plain integer with no mod-256 truncation; in
particular `decrypt 0x00 = 0x2E`, `decrypt 0xFF = 0xFF`, and the result
can exceed 255 (`decrypt 0xE8 = 278`). -/
theorem decrypt_formula (b : Int) (hb : isByte b) :
    decrypt b = ((b.toNat ^^^ 0x17 : Nat) : Int) + 0x17 ∧
    decrypt 0x00 = 0x2E ∧ decrypt 0xFF = 0xFF ∧ decrypt 0xE8 = 278 := by
  refine ⟨?_, by decide, by decide, by decide⟩
  unfold decrypt
  rw [cxxXor_byte hb (by decide)]
  rfl

/-- Witness for C3 (amended), at the concrete byte `0xAB`. -/
theorem decrypt_formula_witness :
    decrypt 0xAB = (((0xAB : Int).toNat ^^^ 0x17 : Nat) : Int) + 0x17 ∧
    decrypt 0x00 = 0x2E ∧ decrypt 0xFF = 0xFF ∧ decrypt 0xE8 = 278 :=
  decrypt_formula 0xAB (by decide)

/-- C4: for every raw frame `[b0..b5]`, the decode returns
`joystickX = b0`, `joystickY = b1`,
`accelX = (b2 << 2) | ((b5 & 0xC0) >> 6)`,
`accelY = (b3 << 2) | ((b5 & 0x30) >> 4)`,
`accelZ = (b4 << 2) | ((b5 & 0x0C) >> 2)`,
`buttonC = (b5 & 0x02) >> 1`, `buttonZ = b5 & 0x01`; and for the frame
`[0x80, 0x80, 0x10, 0x20, 0x30, 0xC3]` read through a plain-mode
(encryption inactive) driver it returns `accelX = 67`, `buttonC = 1`,
`buttonZ = 1`. -/
theorem parse_decode_formulas :
    (∀ b0 b1 b2 b3 b4 b5 : Int,
      parseDeviceBuffer ⟨b0, b1, b2, b3, b4, b5⟩ =
        ⟨b0, b1,
         cxxOr (cxxShl b2 2) (cxxShr (cxxAnd b5 0xc0) 6),
         cxxOr (cxxShl b3 2) (cxxShr (cxxAnd b5 0x30) 4),
         cxxOr (cxxShl b4 2) (cxxShr (cxxAnd b5 0x0c) 2),
         cxxShr (cxxAnd b5 0x02) 1,
         cxxAnd b5 0x01⟩) ∧
    (readRawData plainReader exampleFrameTransport).1.accelerationOnX = 67 ∧
    (readRawData plainReader exampleFrameTransport).1.buttonCState = 1 ∧
    (readRawData plainReader exampleFrameTransport).1.buttonZState = 1 :=
  ⟨fun _ _ _ _ _ _ => rfl, by decide, by decide, by decide⟩

/-- C5: the decode is a total function of the six byte values (so
deterministic, with no invalid input frame), and on byte inputs the
reconstructed accelerometer axes lie in `[0, 1023]` and the button states
in `{0, 1}`. -/
theorem parse_ranges (buf : ReadBuffer) (h2 : isByte buf.v2) (h3 : isByte buf.v3)
    (h4 : isByte buf.v4) (h5 : isByte buf.v5) :
    (0 ≤ (parseDeviceBuffer buf).accelerationOnX ∧
      (parseDeviceBuffer buf).accelerationOnX ≤ 1023) ∧
    (0 ≤ (parseDeviceBuffer buf).accelerationOnY ∧
      (parseDeviceBuffer buf).accelerationOnY ≤ 1023) ∧
    (0 ≤ (parseDeviceBuffer buf).accelerationOnZ ∧
      (parseDeviceBuffer buf).accelerationOnZ ≤ 1023) ∧
    ((parseDeviceBuffer buf).buttonCState = 0 ∨ (parseDeviceBuffer buf).buttonCState = 1) ∧
    ((parseDeviceBuffer buf).buttonZState = 0 ∨ (parseDeviceBuffer buf).buttonZState = 1) := by
  obtain ⟨v0, v1, v2, v3, v4, v5⟩ := buf
  simp only [parseDeviceBuffer]
  exact ⟨accel_axis_range 6 h2 h5 (by decide) (by decide),
    accel_axis_range 4 h3 h5 (by decide) (by decide),
    accel_axis_range 2 h4 h5 (by decide) (by decide),
    button_c_cases h5, button_z_cases h5⟩

/-- Witness for C5, at the all-ones frame. -/
theorem parse_ranges_witness :
    (0 ≤ (parseDeviceBuffer ⟨255, 255, 255, 255, 255, 255⟩).accelerationOnX ∧
      (parseDeviceBuffer ⟨255, 255, 255, 255, 255, 255⟩).accelerationOnX ≤ 1023) ∧
    (0 ≤ (parseDeviceBuffer ⟨255, 255, 255, 255, 255, 255⟩).accelerationOnY ∧
      (parseDeviceBuffer ⟨255, 255, 255, 255, 255, 255⟩).accelerationOnY ≤ 1023) ∧
    (0 ≤ (parseDeviceBuffer ⟨255, 255, 255, 255, 255, 255⟩).accelerationOnZ ∧
      (parseDeviceBuffer ⟨255, 255, 255, 255, 255, 255⟩).accelerationOnZ ≤ 1023) ∧
    ((parseDeviceBuffer ⟨255, 255, 255, 255, 255, 255⟩).buttonCState = 0 ∨
      (parseDeviceBuffer ⟨255, 255, 255, 255, 255, 255⟩).buttonCState = 1) ∧
    ((parseDeviceBuffer ⟨255, 255, 255, 255, 255, 255⟩).buttonZState = 0 ∨
      (parseDeviceBuffer ⟨255, 255, 255, 255, 255, 255⟩).buttonZState = 1) :=
  parse_ranges ⟨255, 255, 255, 255, 255, 255⟩ (by decide) (by decide) (by decide) (by decide)

/-- C6: for every driver state and every underlying transport (hence
every underlying frame), the values returned by `readDeviceValues` — the
joystick, accelerometer, and both button sub-values, with `buttonC`
holding `buttonCState` and `buttonZ` holding `buttonZState` — equal the
corresponding fields of the `RawNunchuckData` that `readRawData` produces
from the same state, and the driver and transport after
`readDeviceValues` equal those after the single delegated `readRawData`
(no extra bus I/O). -/
theorem readDeviceValues_repackages (s : NunchuckReader) (t : Transport) :
    ((readDeviceValues s t).1.joystick.x = (readRawData s t).1.joystickPositionX ∧
     (readDeviceValues s t).1.joystick.y = (readRawData s t).1.joystickPositionY ∧
     (readDeviceValues s t).1.accelerometer.x = (readRawData s t).1.accelerationOnX ∧
     (readDeviceValues s t).1.accelerometer.y = (readRawData s t).1.accelerationOnY ∧
     (readDeviceValues s t).1.accelerometer.z = (readRawData s t).1.accelerationOnZ ∧
     (readDeviceValues s t).1.buttonC.state = (readRawData s t).1.buttonCState ∧
     (readDeviceValues s t).1.buttonZ.state = (readRawData s t).1.buttonZState) ∧
    (readDeviceValues s t).2 = (readRawData s t).2 :=
  ⟨⟨rfl, rfl, rfl, rfl, rfl, rfl, rfl⟩, rfl⟩

/-- C7: constructing with a wait below 300 microseconds fails with the
configuration error before any bus operation (the transport, including
its trace, is returned untouched); constructing with exactly 300 never
yields the configuration error (the boundary is inclusive); and the
single-argument constructor is the two-argument one at the default wait
of 500 microseconds. -/
theorem constructor_validates_wait :
    (∀ (w : Int) (mode : InitializationMode) (t : Transport), w < 300 →
        mkNunchuckReader w mode t = (Except.error DriverError.invalidConfigurationError, t)) ∧
    (∀ (mode : InitializationMode) (t : Transport),
        (mkNunchuckReader 300 mode t).1 ≠ Except.error DriverError.invalidConfigurationError) ∧
    (∀ (mode : InitializationMode) (t : Transport),
        mkNunchuckReaderDefaultWait mode t = mkNunchuckReader 500 mode t) := by
  refine ⟨?_, ?_, fun mode t => rfl⟩
  · intro w mode t hw
    simp [mkNunchuckReader, MINIMUN_CIRCUIT_ADAPTATION_WAIT_MICROSECONDS, hw]
  · intro mode t
    have h300 : ¬ ((300 : Int) < MINIMUN_CIRCUIT_ADAPTATION_WAIT_MICROSECONDS) := by
      simp [MINIMUN_CIRCUIT_ADAPTATION_WAIT_MICROSECONDS]
    cases mode <;>
      simp only [mkNunchuckReader, h300, if_false, wiringPiI2CSetup, initWithEncryption,
        initWithoutEncryption, wiringPiI2CWriteReg8, sleepMicroseconds] <;>
      split <;> simp

/-- Witness for C7, at wait 299 (rejected) and 300 (not rejected). -/
theorem constructor_validates_wait_witness :
    mkNunchuckReader 299 InitializationMode.ENCRYPTED zeroFrameTransport =
      (Except.error DriverError.invalidConfigurationError, zeroFrameTransport) ∧
    (mkNunchuckReader 300 InitializationMode.ENCRYPTED zeroFrameTransport).1 ≠
      Except.error DriverError.invalidConfigurationError ∧
    mkNunchuckReaderDefaultWait InitializationMode.ENCRYPTED zeroFrameTransport =
      mkNunchuckReader 500 InitializationMode.ENCRYPTED zeroFrameTransport :=
  ⟨constructor_validates_wait.1 299 InitializationMode.ENCRYPTED zeroFrameTransport (by decide),
   constructor_validates_wait.2.1 InitializationMode.ENCRYPTED zeroFrameTransport,
   constructor_validates_wait.2.2 InitializationMode.ENCRYPTED zeroFrameTransport⟩

/-- C8: after a successful bus open (non-negative fd), encrypted-mode
initialization performs exactly the open, one write of byte `0x00` to
register `0x40`, and the configured wait, ending with the flag set; and
plain-mode initialization performs the open, `0x55` to `0xF0`, then
`0x00` to `0xFB`, then the wait, ending with the flag cleared. -/
theorem initialization_sequences (w : Int) (t : Transport)
    (hw : ¬ w < 300) (hfd : 0 ≤ t.setupResult) :
    mkNunchuckReader w InitializationMode.ENCRYPTED t =
      (Except.ok ⟨true, t.setupResult, w⟩,
        { t with trace := t.trace ++ [BusOp.setup 0x52,
            BusOp.writeReg8 t.setupResult 0x40 0x00, BusOp.sleep w] }) ∧
    mkNunchuckReader w InitializationMode.NOT_ENCRYPTED t =
      (Except.ok ⟨false, t.setupResult, w⟩,
        { t with trace := t.trace ++ [BusOp.setup 0x52,
            BusOp.writeReg8 t.setupResult 0xF0 0x55,
            BusOp.writeReg8 t.setupResult 0xFB 0x00, BusOp.sleep w] }) := by
  have hw' : ¬ w < MINIMUN_CIRCUIT_ADAPTATION_WAIT_MICROSECONDS := by
    simp only [MINIMUN_CIRCUIT_ADAPTATION_WAIT_MICROSECONDS]
    exact hw
  have hfd' : ¬ t.setupResult < 0 := by omega
  constructor <;>
    simp [mkNunchuckReader, hw', hfd', wiringPiI2CSetup, initWithEncryption,
      initWithoutEncryption, wiringPiI2CWriteReg8, sleepMicroseconds,
      NUNCHUCK_I2C_ADDRESS]

/-- Witness for C8, at wait 500 against the zero-frame transport. -/
theorem initialization_sequences_witness :
    mkNunchuckReader 500 InitializationMode.ENCRYPTED zeroFrameTransport =
      (Except.ok ⟨true, zeroFrameTransport.setupResult, 500⟩,
        { zeroFrameTransport with trace := zeroFrameTransport.trace ++ [BusOp.setup 0x52,
            BusOp.writeReg8 zeroFrameTransport.setupResult 0x40 0x00, BusOp.sleep 500] }) ∧
    mkNunchuckReader 500 InitializationMode.NOT_ENCRYPTED zeroFrameTransport =
      (Except.ok ⟨false, zeroFrameTransport.setupResult, 500⟩,
        { zeroFrameTransport with trace := zeroFrameTransport.trace ++ [BusOp.setup 0x52,
            BusOp.writeReg8 zeroFrameTransport.setupResult 0xF0 0x55,
            BusOp.writeReg8 zeroFrameTransport.setupResult 0xFB 0x00, BusOp.sleep 500] }) :=
  initialization_sequences 500 zeroFrameTransport (by decide) (by decide)

/-- C9: `fetchDeviceBuffer` performs, in order, exactly one zero-byte
write to the device, one wait of the configured delay, and six sequential
single-byte reads whose results fill buffer positions 0 through 5 in read
order (consuming exactly the first six scripted values). -/
theorem fetch_sequence (s : NunchuckReader) (t : Transport)
    (w0 w1 w2 w3 w4 w5 : Int) (rest : List Int)
    (h : t.pending = w0 :: w1 :: w2 :: w3 :: w4 :: w5 :: rest) :
    fetchDeviceBuffer s t =
      (⟨w0, w1, w2, w3, w4, w5⟩, s,
        { setupResult := t.setupResult, pending := rest,
          trace := t.trace ++ [BusOp.write s.i2CPortFileDescriptor 0x00,
            BusOp.sleep s.circuitAdaptationWaitMicrosecons,
            BusOp.read s.i2CPortFileDescriptor, BusOp.read s.i2CPortFileDescriptor,
            BusOp.read s.i2CPortFileDescriptor, BusOp.read s.i2CPortFileDescriptor,
            BusOp.read s.i2CPortFileDescriptor, BusOp.read s.i2CPortFileDescriptor] }) := by
  simp [fetchDeviceBuffer, wiringPiI2CWrite, sleepMicroseconds, wiringPiI2CRead, h]

/-- Witness for C9, at the zero-frame transport. -/
theorem fetch_sequence_witness :
    fetchDeviceBuffer plainReader zeroFrameTransport =
      (⟨0, 0, 0, 0, 0, 0⟩, plainReader,
        { setupResult := zeroFrameTransport.setupResult, pending := [],
          trace := zeroFrameTransport.trace ++
            [BusOp.write plainReader.i2CPortFileDescriptor 0x00,
             BusOp.sleep plainReader.circuitAdaptationWaitMicrosecons,
             BusOp.read plainReader.i2CPortFileDescriptor,
             BusOp.read plainReader.i2CPortFileDescriptor,
             BusOp.read plainReader.i2CPortFileDescriptor,
             BusOp.read plainReader.i2CPortFileDescriptor,
             BusOp.read plainReader.i2CPortFileDescriptor,
             BusOp.read plainReader.i2CPortFileDescriptor] }) :=
  fetch_sequence plainReader zeroFrameTransport 0 0 0 0 0 0 [] rfl

/-- C10: `readRawData` and `readDeviceValues` return the driver object
unchanged (no member assignment exists on the read path, so the transport
handle, the encryption flag, and the configured wait are preserved);
`isEncryptedModeEnabled` returns the stored flag and also leaves the
object unchanged; and every successfully constructed driver carries the
flag determined by its initialization mode and the wait it was configured
with — so the flag never changes after initialization. -/
theorem driver_state_immutable :
    (∀ (s : NunchuckReader) (t : Transport), (readRawData s t).2.1 = s) ∧
    (∀ (s : NunchuckReader) (t : Transport), (readDeviceValues s t).2.1 = s) ∧
    (∀ s : NunchuckReader, isEncryptedModeEnabled s = (s.encyptedModeEnabled, s)) ∧
    (∀ (w : Int) (mode : InitializationMode) (t t' : Transport) (s : NunchuckReader),
        mkNunchuckReader w mode t = (Except.ok s, t') →
        (s.encyptedModeEnabled = true ↔ mode = InitializationMode.ENCRYPTED) ∧
        s.circuitAdaptationWaitMicrosecons = w) := by
  refine ⟨fun s t => rfl, fun s t => rfl, fun s => rfl, ?_⟩
  intro w mode t t' s h
  by_cases hw : w < MINIMUN_CIRCUIT_ADAPTATION_WAIT_MICROSECONDS
  · simp [mkNunchuckReader, hw] at h
  · by_cases hfd : t.setupResult < 0
    · cases mode <;>
        simp [mkNunchuckReader, hw, hfd, wiringPiI2CSetup] at h
    · cases mode <;>
        simp [mkNunchuckReader, hw, hfd, wiringPiI2CSetup, initWithEncryption,
          initWithoutEncryption, wiringPiI2CWriteReg8, sleepMicroseconds] at h <;>
        obtain ⟨h1, h2⟩ := h <;>
        subst h1 <;>
        simp

/-- Witness for C10, at an encrypted-mode construction with wait 500. -/
theorem driver_state_immutable_witness :
    (encryptedReader.encyptedModeEnabled = true ↔
      InitializationMode.ENCRYPTED = InitializationMode.ENCRYPTED) ∧
    encryptedReader.circuitAdaptationWaitMicrosecons = 500 :=
  driver_state_immutable.2.2.2 500 InitializationMode.ENCRYPTED zeroFrameTransport
    ⟨3, [0, 0, 0, 0, 0, 0], [BusOp.setup 0x52, BusOp.writeReg8 3 0x40 0x00, BusOp.sleep 500]⟩
    encryptedReader rfl

end NunchuckVerify
